import Mathlib

/-!
Verification of `ollamify_vllm_proxy.py` (ollama-https-proxy), the most
complete proxy variant, which the spec treats as normative.

The embedding models Python JSON values, dict operations (first-match lookup,
insert-or-overwrite), Python truthiness, the option mapper, the SSE→NDJSON
stream transcoders (`chat_streamer`, `generate_streamer`), and the `proxy`
route handler as pure functions. External effects are parameters:
`jsonParse` stands for `json.loads` (an abstract decoder), `now` for the
`time.strftime(...)` timestamp, and a `Backend` record of oracles stands for
the httpx calls, returning either data or a classified exception.
-/

set_option autoImplicit false

namespace OllamaProxy

/-- Python/JSON values as produced by `json.loads`. Numbers are modelled as
integers (no claim involves fractional values). -/
inductive Json where
  | null
  | bool (b : Bool)
  | num (n : Int)
  | str (s : String)
  | arr (elems : List Json)
  | obj (fields : List (String × Json))
  deriving Repr

/-- Model of `s.startswith(p)`, computed on the character lists so that closed
instances reduce by evaluation. -/
def strStartsWith (s p : String) : Bool :=
  p.data.isPrefixOf s.data

/-- Model of `s[n:]` (drop the first `n` characters). -/
def strDrop (s : String) (n : Nat) : String :=
  ⟨s.data.drop n⟩

/-- Model of `s.strip()`: remove leading and trailing whitespace (the inputs here
are ASCII, where the Python `strip` and this agree). -/
def strTrim (s : String) : String :=
  ⟨((s.data.dropWhile Char.isWhitespace).reverse.dropWhile
      Char.isWhitespace).reverse⟩

/-- Python truthiness (`bool(x)`): `None`, `False`, `0`, `""`, `[]`, `{}` are
falsy; everything else is truthy. -/
def truthy : Json → Bool
  | .null => false
  | .bool b => b
  | .num n => !(n == 0)
  | .str s => !(s == "")
  | .arr elems => !elems.isEmpty
  | .obj fields => !fields.isEmpty

/-- Dict lookup (`d[k]` when present / `k in d`): first matching key.
Python dicts have unique keys, so first-match agrees with dict semantics. -/
def dget : List (String × Json) → String → Option Json
  | [], _ => none
  | (k', v) :: rest, k => if k' = k then some v else dget rest k

/-- Dict access `d.get(k, default)`. -/
def dgetD (fields : List (String × Json)) (k : String) (default : Json) : Json :=
  (dget fields k).getD default

/-- Membership test `k in d`. -/
def hasKey (fields : List (String × Json)) (k : String) : Bool :=
  (dget fields k).isSome

/-- Dict assignment `d[k] = v`: overwrite in place if the key exists,
else append. -/
def dinsert : List (String × Json) → String → Json → List (String × Json)
  | [], k, v => [(k, v)]
  | (k', v') :: rest, k, v =>
    if k' = k then (k, v) :: rest else (k', v') :: dinsert rest k v

/-- Dict update `d.update(other)`: insert every pair of `other` into `d`, in order. -/
def dupdate (fields other : List (String × Json)) : List (String × Json) :=
  other.foldl (fun acc kv => dinsert acc kv.1 kv.2) fields

/-- Python subscript `j["k"]`: succeeds only on a dict holding the key;
any other receiver raises (`TypeError`/`KeyError`), modelled as `none`. -/
def jfield : Json → String → Option Json
  | .obj fields, k => dget fields k
  | _, _ => none

/-- Python subscript `j[0]` for the uses in this program: succeeds on a
non-empty list. Indexing a string would yield a one-character string whose
subsequent string-keyed subscript always raises, and every other receiver
raises immediately, so `none` faithfully marks every receiver on which the
composite subscript chains of this program raise. -/
def jidx : Json → Nat → Option Json
  | .arr elems, i => elems[i]?
  | _, _ => none

-- ===============================
-- CONFIG (source lines 22-31)
-- ===============================

def VLLM_URL : String := "http://localhost:8000"

def VLLM_MODEL : String := "unsloth/medgemma-27b-text-it-unsloth-bnb-4bit"

def PROXY_PORT : Nat := 11443

def CONNECT_TIMEOUT : Nat := 10

def READ_TIMEOUT : Nat := 300

-- ===============================
-- map_options (source lines 78-93)
-- ===============================

/-- The function `map_options(options)`. The argument is the JSON value found under
`"options"` (default `{}`), so it can be any JSON value. A falsy value
returns `{}`. A truthy dict is mapped key by key. A truthy non-dict makes
the `in` tests / subscripts of the body raise `TypeError` for the key
patterns this program feeds it, modelled as `.error`. -/
def map_options : Json → Except Unit (List (String × Json))
  | options =>
    if !truthy options then .ok []
    else match options with
      | .obj fields =>
        let out : List (String × Json) := []
        let out := if hasKey fields "temperature" then
            dinsert out "temperature" (dgetD fields "temperature" .null) else out
        let out := if hasKey fields "top_p" then
            dinsert out "top_p" (dgetD fields "top_p" .null) else out
        let out := if hasKey fields "num_predict" then
            dinsert out "max_tokens" (dgetD fields "num_predict" .null) else out
        let out := if hasKey fields "max_tokens" then
            dinsert out "max_tokens" (dgetD fields "max_tokens" .null) else out
        .ok out
      | _ => .error ()

/-- Modelled from the words of the spec (section 4.2), for comparison with
`map_options`: copy `temperature` and `top_p` verbatim, set `max_tokens`
from `num_predict`, overwrite it from an explicit `max_tokens`, drop
everything else. -/
def map_options_spec (fields : List (String × Json)) : List (String × Json) :=
  (if hasKey fields "temperature" then
      [("temperature", dgetD fields "temperature" .null)] else []) ++
  (if hasKey fields "top_p" then
      [("top_p", dgetD fields "top_p" .null)] else []) ++
  (if hasKey fields "max_tokens" then
      [("max_tokens", dgetD fields "max_tokens" .null)]
   else if hasKey fields "num_predict" then
      [("max_tokens", dgetD fields "num_predict" .null)] else [])

-- ===============================
-- Stream transcoders (source lines 234-289 `chat_streamer`
-- and 337-381 `generate_streamer`)
-- ===============================

/-- How one backend SSE line is treated after the per-line tests of the
loop body: skipped (blank or no `data:` marker), the `[DONE]` sentinel, a
data line whose payload fails JSON decoding, or a decoded chunk. -/
inductive SSEItem where
  | skip
  | sentinel
  | malformed
  | chunk (j : Json)
  deriving Repr

/-- The per-line tests of the streamer loops (source lines 239-246 /
341-347): `if not line: continue`, `if not line.startswith("data:"):
continue`, `data_str = line[len("data:"):].strip()`, the `[DONE]` test,
and `json.loads(data_str)` (the decoder is the `decode` parameter). -/
def itemOf (decode : String → Option Json) (line : String) : SSEItem :=
  if line = "" then .skip
  else if !strStartsWith line "data:" then .skip
  else
    let data_str := strTrim (strDrop line 5)
    if data_str = "[DONE]" then .sentinel
    else match decode data_str with
      | none => .malformed
      | some j => .chunk j

/-- How the streamer loop ended: sentinel reached (`break` after the final
frame), input exhausted (upstream closed without a sentinel), or an
exception raised inside the generator (subscript/`get` failure on a
decoded chunk), which aborts the response mid-stream. -/
inductive StreamEnd where
  | done
  | exhausted
  | raised
  deriving Repr

/-- Subscript chain `chunk["choices"][0]["delta"]` (source lines 268 / 368). -/
def deltaOf (chunk : Json) : Option Json :=
  ((jfield chunk "choices").bind (fun c => jidx c 0)).bind
    (fun c0 => jfield c0 "delta")

/-- Non-terminal chat frame (source lines 273-281); `created_at` is the
`now` parameter, the content piece is embedded verbatim. -/
def chatContentFrame (ollama_model : Json) (now : String) (piece : Json) : Json :=
  .obj [("model", ollama_model), ("created_at", .str now),
        ("message", .obj [("role", .str "assistant"), ("content", piece)]),
        ("done", .bool false)]

/-- Terminal chat frame emitted on `[DONE]` (source lines 245-260). -/
def chatFinalFrame (ollama_model : Json) (now : String) : Json :=
  .obj [("model", ollama_model), ("created_at", .str now),
        ("message", .obj [("role", .str "assistant"), ("content", .str "")]),
        ("done", .bool true), ("done_reason", .str "stop"),
        ("total_duration", .num 0), ("load_duration", .num 0),
        ("prompt_eval_count", .num 0), ("prompt_eval_duration", .num 0),
        ("eval_count", .num 0), ("eval_duration", .num 0)]

/-- Non-terminal generate frame (source lines 373-378): the piece sits in a
top-level `response` field instead of a nested message. -/
def genContentFrame (ollama_model : Json) (now : String) (piece : Json) : Json :=
  .obj [("model", ollama_model), ("created_at", .str now),
        ("response", piece), ("done", .bool false)]

/-- Terminal generate frame emitted on `[DONE]` (source lines 348-360). -/
def genFinalFrame (ollama_model : Json) (now : String) : Json :=
  .obj [("model", ollama_model), ("created_at", .str now),
        ("response", .str ""),
        ("done", .bool true), ("done_reason", .str "stop"),
        ("total_duration", .num 0), ("load_duration", .num 0),
        ("prompt_eval_count", .num 0), ("prompt_eval_duration", .num 0),
        ("eval_count", .num 0), ("eval_duration", .num 0)]

/-- The common loop body of both streamers, over classified lines.
`final` is the terminal frame, `mk` builds a non-terminal frame. On the
sentinel: yield `final` and `break`. On a chunk: take
`chunk["choices"][0]["delta"]` (raising aborts the generator), then
`delta.get("content", "")` (raising on a non-dict delta), skip falsy
pieces (`if not piece: continue`), else yield one frame. -/
def runStream (final : Json) (mk : Json → Json) :
    List SSEItem → List Json × StreamEnd
  | [] => ([], .exhausted)
  | .skip :: rest => runStream final mk rest
  | .sentinel :: _ => ([final], .done)
  | .malformed :: rest => runStream final mk rest
  | .chunk j :: rest =>
    match deltaOf j with
    | none => ([], .raised)
    | some delta =>
      match delta with
      | .obj dfields =>
        let piece := dgetD dfields "content" (.str "")
        if truthy piece then
          let r := runStream final mk rest
          (mk piece :: r.1, r.2)
        else runStream final mk rest
      | _ => ([], .raised)

/-- The generator `chat_streamer` (source lines 234-284) as a pure function
from the SSE lines of the backend to the emitted NDJSON frames plus how the loop ended. -/
def chat_streamer (decode : String → Option Json) (ollama_model : Json)
    (now : String) (lines : List String) : List Json × StreamEnd :=
  runStream (chatFinalFrame ollama_model now) (chatContentFrame ollama_model now)
    (lines.map (itemOf decode))

/-- The generator `generate_streamer` (source lines 337-381) as a pure
function. -/
def generate_streamer (decode : String → Option Json) (ollama_model : Json)
    (now : String) (lines : List String) : List Json × StreamEnd :=
  runStream (genFinalFrame ollama_model now) (genContentFrame ollama_model now)
    (lines.map (itemOf decode))

/-- Is this frame terminal (`done == true`)? -/
def isDoneFrame (f : Json) : Bool :=
  match jfield f "done" with
  | some (.bool true) => true
  | _ => false

-- ===============================
-- Backend outcomes and the proxy route handler (source lines 152-531)
-- ===============================

/-- A failed backend call, classified by the exception classes the handler
distinguishes. `connectTimeout`/`readTimeout` are `httpx.ConnectTimeout` /
`httpx.ReadTimeout`; `httpError` is any other `httpx.HTTPError` (including
`raise_for_status`); `otherError` is a non-httpx exception (for the
non-streaming chat call this includes a JSON-decode failure of `r.json()`).
The string is the exception text `str(e)`. -/
inductive UpstreamErr where
  | connectTimeout (msg : String)
  | readTimeout (msg : String)
  | httpError (msg : String)
  | otherError (msg : String)
  deriving Repr

/-- Class test `isinstance(e, httpx.HTTPError)`: in httpx both timeout
classes are subclasses of `httpx.HTTPError`, so only a non-httpx exception
is outside the class. -/
def isHttpError : UpstreamErr → Bool
  | .connectTimeout _ => true
  | .readTimeout _ => true
  | .httpError _ => true
  | .otherError _ => false

/-- Exception text `str(e)`. -/
def errStr : UpstreamErr → String
  | .connectTimeout m => m
  | .readTimeout m => m
  | .httpError m => m
  | .otherError m => m

/-- The inbound HTTP request, as the handler sees it: path (no leading
slash, per the `/{path:path}` route), method, headers (Starlette
normalizes header names to lowercase), raw body bytes, query string. -/
structure FrontRequest where
  path : String
  method : String
  headers : List (String × String)
  body : String
  query : String

/-- A request the proxy issues to the backend. -/
structure BackendRequest where
  method : String
  url : String
  headers : List (String × String)
  content : String
  params : String
  deriving Repr

/-- A buffered backend response. -/
structure BackendResponse where
  status_code : Nat
  headers : List (String × String)
  content : String
  deriving Repr

/-- Oracles for the backend calls the handler can make.
`chat_completions` is the non-streaming `vllm_chat_request` (POST of the
payload to `/v1/chat/completions`, `raise_for_status`, `r.json()`);
`chat_completions_stream` gives the SSE lines the streamed variant of the
same call delivers; `forward` is the buffered passthrough
`client.request`; `forward_stream` is the streamed passthrough request,
yielding status, headers, and raw byte chunks. -/
structure Backend where
  chat_completions : Json → Except UpstreamErr Json
  chat_completions_stream : Json → List String
  forward : BackendRequest → Except UpstreamErr BackendResponse
  forward_stream : BackendRequest → Except UpstreamErr
    (Nat × List (String × String) × List String)

/-- What the handler produces for the client: a `json_response`, a raw
`Response` (passthrough and plain-text error bodies), an NDJSON
`StreamingResponse` (status 200) whose frames come from a transcoder, a raw
relayed stream, or an exception escaping the handler (`raised`) — which the
server framework, outside this code, turns into a generic 500. -/
inductive HandlerResult where
  | json (status : Nat) (body : Json)
  | raw (status : Nat) (headers : List (String × String)) (content : String)
  | ndjson (frames : List Json) (ending : StreamEnd)
  | relay (status : Nat) (headers : List (String × String)) (chunks : List String)
  | raised
  deriving Repr

/-- The HTTP status the client sees from the handler itself (streaming
responses start as 200/backends status; `raised` produces none — the
framework substitutes its own error response). -/
def statusOf : HandlerResult → Option Nat
  | .json s _ => some s
  | .raw s _ _ => some s
  | .ndjson _ _ => some 200
  | .relay s _ _ => some s
  | .raised => none

/-- Header lookup `request.headers.get(k, d)` (lowercase keys). -/
def headerGetD (headers : List (String × String)) (k d : String) : String :=
  match headers.find? (fun kv => kv.1 = k) with
  | some kv => kv.2
  | none => d

/-- Host removal `headers.pop("host", None)` on `dict(request.headers)`. -/
def removeHost (headers : List (String × String)) : List (String × String) :=
  headers.filter (fun kv => kv.1 ≠ "host")

/-- Source lines 166-171: parse the body as JSON only when it is non-empty
and the content type starts with `application/json`; a decode failure
leaves `json_body = None`. -/
def parsedBody (jsonParse : String → Option Json) (req : FrontRequest) :
    Option Json :=
  if req.body ≠ "" ∧
      strStartsWith (headerGetD req.headers "content-type" "") "application/json"
  then jsonParse req.body
  else none

/-- Truthiness of `json_body` (`None` is falsy). -/
def truthyOpt : Option Json → Bool
  | none => false
  | some j => truthy j

/-- Source lines 174-176: `is_streaming = bool(json_body.get("stream",
False))` for a POST with truthy `json_body`. `.get` exists only on dicts:
for a truthy non-dict body the line raises `AttributeError` (modelled as
`none`), which escapes the handler. -/
def isStreamingOf (method : String) (json_body : Option Json) : Option Bool :=
  if method = "POST" ∧ truthyOpt json_body then
    match json_body with
    | some (.obj fields) => some (truthy (dgetD fields "stream" (.bool false)))
    | _ => none
  else some false

/-- The request built by the generic passthrough (source lines 412-413 and
491-498): same method, backend-prefixed URL, headers with `host` removed,
body and query string verbatim. -/
def passthroughRequest (req : FrontRequest) : BackendRequest :=
  { method := req.method
    url := VLLM_URL ++ "/" ++ req.path
    headers := removeHost req.headers
    content := req.body
    params := req.query }

/-- The static `/api/tags` body (source lines 393-406). -/
def tagsBody (now : String) : Json :=
  .obj [("models", .arr [
    .obj [("name", .str "medgemma:27b"), ("modified_at", .str now),
          ("size", .num 0), ("digest", .str ""),
          ("details", .obj [("parameter_size", .str "27B"),
                            ("quantization_level", .str "4bit")])]])]

/-- Classification of a failed passthrough call (source lines 504-531 and
456-487): `ReadTimeout` → 504, `ConnectTimeout` → 503, other
`httpx.HTTPError` → 502, anything else → 500, each with its plain-text
body. -/
def passthroughFailure (e : UpstreamErr) : HandlerResult :=
  match e with
  | .readTimeout _ =>
    .raw 504 [("content-type", "text/plain")]
      ("Request timeout: backend took longer than " ++ toString READ_TIMEOUT ++
        " seconds to respond")
  | .connectTimeout _ =>
    .raw 503 [("content-type", "text/plain")]
      "Connection timeout: Could not connect to backend"
  | .httpError m =>
    .raw 502 [("content-type", "text/plain")] ("Proxy error: " ++ m)
  | .otherError m =>
    .raw 500 [("content-type", "text/plain")] ("Internal proxy error: " ++ m)

/-- First choice `data["choices"][0]`. -/
def firstChoice (data : Json) : Option Json :=
  (jfield data "choices").bind (fun c => jidx c 0)

/-- Subscript chain `data["choices"][0]["message"]["content"]`: the subscript chain of the
non-streaming synthesizers; `none` means the chain raises. -/
def contentOf (data : Json) : Option Json :=
  (firstChoice data).bind (fun c0 =>
    (jfield c0 "message").bind (fun mm => jfield mm "content"))

/-- The non-streaming chat response synthesis (source lines 210-231).
`data["choices"][0]["message"]["content"]` raises (escaping the handler)
when any step fails; `data.get("usage", {})` then `usage.get(...)` raises
when `usage` is a truthy non-dict. -/
def chatSynthesize (now : String) (ollama_model data : Json) : HandlerResult :=
  match firstChoice data with
  | none => .raised
  | some c0 =>
    match (jfield c0 "message").bind (fun m => jfield m "content") with
    | none => .raised
    | some content =>
      let finish_reason :=
        match c0 with
        | .obj cf => dgetD cf "finish_reason" (.str "stop")
        | _ => .str "stop"
      let usage := match data with
        | .obj df => dgetD df "usage" (.obj [])
        | _ => .obj []
      match usage with
      | .obj uf =>
        .json 200 (.obj [("model", ollama_model), ("created_at", .str now),
          ("message", .obj [("role", .str "assistant"), ("content", content)]),
          ("done", .bool true), ("done_reason", finish_reason),
          ("total_duration", .num 0), ("load_duration", .num 0),
          ("prompt_eval_count", dgetD uf "prompt_tokens" (.num 0)),
          ("prompt_eval_duration", .num 0),
          ("eval_count", dgetD uf "completion_tokens" (.num 0)),
          ("eval_duration", .num 0)])
      | _ => .raised

/-- The non-streaming generate response synthesis (source lines 318-335):
same extraction, the text goes into a top-level `response` field. -/
def generateSynthesize (now : String) (ollama_model data : Json) : HandlerResult :=
  match firstChoice data with
  | none => .raised
  | some c0 =>
    match (jfield c0 "message").bind (fun m => jfield m "content") with
    | none => .raised
    | some content =>
      let finish_reason :=
        match c0 with
        | .obj cf => dgetD cf "finish_reason" (.str "stop")
        | _ => .str "stop"
      let usage := match data with
        | .obj df => dgetD df "usage" (.obj [])
        | _ => .obj []
      match usage with
      | .obj uf =>
        .json 200 (.obj [("model", ollama_model), ("created_at", .str now),
          ("response", content),
          ("done", .bool true), ("done_reason", finish_reason),
          ("total_duration", .num 0), ("load_duration", .num 0),
          ("prompt_eval_count", dgetD uf "prompt_tokens" (.num 0)),
          ("prompt_eval_duration", .num 0),
          ("eval_count", dgetD uf "completion_tokens" (.num 0)),
          ("eval_duration", .num 0)])
      | _ => .raised

/-- The `/api/chat` translation branch (source lines 187-289). -/
def chatRoute (jsonParse : String → Option Json) (now : String) (B : Backend)
    (fields : List (String × Json)) (is_streaming : Bool) : HandlerResult :=
  let messages := dgetD fields "messages" (.arr [])
  let options := dgetD fields "options" (.obj [])
  let ollama_model := dgetD fields "model" (.str "ollama-model")
  match map_options options with
  | .error _ => .raised
  | .ok mapped =>
    let payload : Json := .obj (dupdate
      [("model", .str VLLM_MODEL), ("messages", messages),
       ("stream", .bool is_streaming)] mapped)
    if !is_streaming then
      match B.chat_completions payload with
      | .error e =>
        if isHttpError e then
          .json 502 (.obj [("error", .str ("Backend vLLM error: " ++ errStr e))])
        else .raised
      | .ok data => chatSynthesize now ollama_model data
    else
      let r := chat_streamer jsonParse ollama_model now
        (B.chat_completions_stream payload)
      .ndjson r.1 r.2

/-- The `/api/generate` translation branch (source lines 295-386). -/
def generateRoute (jsonParse : String → Option Json) (now : String) (B : Backend)
    (fields : List (String × Json)) (is_streaming : Bool) : HandlerResult :=
  let prompt := dgetD fields "prompt" (.str "")
  let options := dgetD fields "options" (.obj [])
  let ollama_model := dgetD fields "model" (.str "ollama-model")
  let messages : Json := .arr [.obj [("role", .str "user"), ("content", prompt)]]
  match map_options options with
  | .error _ => .raised
  | .ok mapped =>
    let payload : Json := .obj (dupdate
      [("model", .str VLLM_MODEL), ("messages", messages),
       ("stream", .bool is_streaming)] mapped)
    if !is_streaming then
      match B.chat_completions payload with
      | .error e =>
        if isHttpError e then
          .json 502 (.obj [("error", .str ("Backend vLLM error: " ++ errStr e))])
        else .raised
      | .ok data => generateSynthesize now ollama_model data
    else
      let r := generate_streamer jsonParse ollama_model now
        (B.chat_completions_stream payload)
      .ndjson r.1 r.2

/-- The OpenAI-native streaming passthrough branch (source lines 423-487):
relay raw byte chunks (`if chunk: yield chunk` drops empties), preserving
backend status and headers; failures classified as in
`passthroughFailure`. -/
def openaiStreamRoute (B : Backend) (req : FrontRequest) : HandlerResult :=
  match B.forward_stream (passthroughRequest req) with
  | .ok (status, hdrs, chunks) =>
    .relay status hdrs (chunks.filter (fun c => c ≠ ""))
  | .error e => passthroughFailure e

/-- The buffered generic passthrough (source lines 489-531). -/
def genericPassthrough (B : Backend) (req : FrontRequest) : HandlerResult :=
  match B.forward (passthroughRequest req) with
  | .ok resp => .raw resp.status_code resp.headers resp.content
  | .error e => passthroughFailure e

/-- The full `proxy` route handler (source lines 152-531): body parsing,
streaming detection, then the route precedence `/api/chat`,
`/api/generate`, `/api/tags`, OpenAI-native streaming passthrough, generic
passthrough. A translation route is taken only for a POST whose parsed
body is truthy; a truthy body is necessarily a dict at routing time, since
a truthy non-dict already raised during streaming detection. -/
def proxy (jsonParse : String → Option Json) (now : String) (B : Backend)
    (req : FrontRequest) : HandlerResult :=
  let json_body := parsedBody jsonParse req
  match isStreamingOf req.method json_body with
  | none => .raised
  | some is_streaming =>
    if req.path = "api/chat" ∧ req.method = "POST" ∧ truthyOpt json_body then
      match json_body with
      | some (.obj fields) => chatRoute jsonParse now B fields is_streaming
      | _ => .raised
    else if req.path = "api/generate" ∧ req.method = "POST" ∧ truthyOpt json_body then
      match json_body with
      | some (.obj fields) => generateRoute jsonParse now B fields is_streaming
      | _ => .raised
    else if req.path = "api/tags" ∧ req.method = "GET" then
      .json 200 (tagsBody now)
    else if req.method = "POST" ∧ truthyOpt json_body ∧ is_streaming ∧
        (req.path = "v1/chat/completions" ∨ req.path = "v1/completions") then
      openaiStreamRoute B req
    else
      genericPassthrough B req

-- ===============================
-- Dict helper lemmas
-- ===============================

theorem dget_append (l1 l2 : List (String × Json)) (k : String) :
    dget (l1 ++ l2) k = (dget l1 k).or (dget l2 k) := by
  induction l1 with
  | nil => simp [dget]
  | cons h t ih =>
    by_cases hk : h.1 = k
    · obtain ⟨k0, v0⟩ := h
      simp only at hk
      simp [dget, hk]
    · obtain ⟨k0, v0⟩ := h
      simp only at hk
      simp [dget, hk, ih]

theorem dget_getD_isSome (l : List (String × Json)) (k : String) (d : Json) :
    (if (dget l k).isSome then some (dgetD l k d) else none) = dget l k := by
  cases h : dget l k <;> simp [dgetD, h]

theorem map_options_eq_spec (fields : List (String × Json)) :
    map_options (.obj fields) = .ok (map_options_spec fields) := by
  cases fields with
  | nil => rfl
  | cons f fs =>
    cases hT : dget (f :: fs) "temperature" <;>
    cases hP : dget (f :: fs) "top_p" <;>
    cases hN : dget (f :: fs) "num_predict" <;>
    cases hM : dget (f :: fs) "max_tokens" <;>
      simp [map_options, map_options_spec, truthy, dinsert, hasKey, dgetD,
        hT, hP, hN, hM]

theorem dget_map_options_spec (fields : List (String × Json)) (k : String) :
    dget (map_options_spec fields) k =
      if k = "temperature" then dget fields "temperature"
      else if k = "top_p" then dget fields "top_p"
      else if k = "max_tokens" then
        (dget fields "max_tokens").or (dget fields "num_predict")
      else none := by
  have hsplit : k = "temperature" ∨ k = "top_p" ∨ k = "max_tokens" ∨
      (k ≠ "temperature" ∧ k ≠ "top_p" ∧ k ≠ "max_tokens") := by tauto
  cases hT : dget fields "temperature" <;>
  cases hP : dget fields "top_p" <;>
  cases hN : dget fields "num_predict" <;>
  cases hM : dget fields "max_tokens" <;>
  rcases hsplit with h | h | h | ⟨h1, h2, h3⟩ <;>
    first
    | (subst h
       simp [map_options_spec, dget_append, hasKey, dgetD, hT, hP, hN, hM, dget])
    | simp [map_options_spec, dget_append, hasKey, dgetD, hT, hP, hN, hM, dget,
        h1, h2, h3, Ne.symm h1, Ne.symm h2, Ne.symm h3]

-- ===============================
-- Stream transcoder lemmas
-- ===============================

/-- The extracted text piece of one decoded chunk,
`chunk["choices"][0]["delta"].get("content", "")`, when it is a string. -/
def pieceStrOf (chunk : Json) : Option String :=
  match deltaOf chunk with
  | some (.obj dfields) =>
    match dgetD dfields "content" (.str "") with
    | .str s => some s
    | _ => none
  | _ => none

/-- Concatenation of a list of strings. -/
def concatAll (l : List String) : String := l.foldr (fun a b => a ++ b) ""

/-- The content strings carried by the non-terminal frames of a stream, in
order (`message.content` of each frame with `done == false`). -/
def contentsOf (frames : List Json) : List String :=
  (frames.filter (fun f => !isDoneFrame f)).filterMap (fun f =>
    match (jfield f "message").bind (fun mm => jfield mm "content") with
    | some (.str s) => some s
    | _ => none)

theorem isDoneFrame_chatContentFrame (m : Json) (now : String) (p : Json) :
    isDoneFrame (chatContentFrame m now p) = false := rfl

theorem isDoneFrame_chatFinalFrame (m : Json) (now : String) :
    isDoneFrame (chatFinalFrame m now) = true := rfl

theorem isDoneFrame_genContentFrame (m : Json) (now : String) (p : Json) :
    isDoneFrame (genContentFrame m now p) = false := rfl

theorem isDoneFrame_genFinalFrame (m : Json) (now : String) :
    isDoneFrame (genFinalFrame m now) = true := rfl

theorem chatContent_extract (m : Json) (now : String) (p : Json) :
    (jfield (chatContentFrame m now p) "message").bind (fun mm => jfield mm "content")
      = some p := rfl

theorem runStream_malformed (final : Json) (mk : Json → Json)
    (xs ys : List SSEItem) :
    runStream final mk (xs ++ .malformed :: ys) = runStream final mk (xs ++ ys) := by
  induction xs with
  | nil => rfl
  | cons x t ih =>
    cases x with
    | skip => simpa [runStream] using ih
    | sentinel => simp [runStream]
    | malformed => simpa [runStream] using ih
    | chunk j =>
      simp only [List.cons_append, runStream]
      cases hd : deltaOf j with
      | none => rfl
      | some delta => cases delta <;> simp [ih]

theorem runStream_sentinel_stop (final : Json) (mk : Json → Json)
    (xs ys : List SSEItem) :
    runStream final mk (xs ++ .sentinel :: ys)
      = runStream final mk (xs ++ [.sentinel]) := by
  induction xs with
  | nil => rfl
  | cons x t ih =>
    cases x with
    | skip => simpa [runStream] using ih
    | sentinel => simp [runStream]
    | malformed => simpa [runStream] using ih
    | chunk j =>
      simp only [List.cons_append, runStream]
      cases hd : deltaOf j with
      | none => rfl
      | some delta => cases delta <;> simp [ih]

theorem runStream_done_shape (final : Json) (mk : Json → Json)
    (hmk : ∀ p, isDoneFrame (mk p) = false) (items : List SSEItem) :
    ((runStream final mk items).2 = .done →
      ∃ cs, (runStream final mk items).1 = cs ++ [final] ∧
        ∀ f ∈ cs, isDoneFrame f = false) ∧
    ((runStream final mk items).2 ≠ .done →
      ∀ f ∈ (runStream final mk items).1, isDoneFrame f = false) := by
  induction items with
  | nil => exact ⟨fun h => absurd h (by simp [runStream]), fun _ => by simp [runStream]⟩
  | cons x t ih =>
    cases x with
    | skip => simpa [runStream] using ih
    | sentinel =>
      refine ⟨fun _ => ⟨[], by simp [runStream]⟩, fun h => absurd rfl h⟩
    | malformed => simpa [runStream] using ih
    | chunk j =>
      cases hd : deltaOf j with
      | none => exact ⟨fun h => absurd h (by simp [runStream, hd]),
          fun _ => by simp [runStream, hd]⟩
      | some delta =>
        cases delta with
        | obj dfields =>
          by_cases hp : truthy (dgetD dfields "content" (.str "")) = true
          · constructor
            · intro h
              simp only [runStream, hd, hp, if_true] at h ⊢
              obtain ⟨cs, hcs, hall⟩ := ih.1 h
              exact ⟨mk (dgetD dfields "content" (.str "")) :: cs,
                by simp [hcs], by simpa [hmk] using hall⟩
            · intro h
              simp only [runStream, hd, hp, if_true] at h ⊢
              intro f hf
              rcases List.mem_cons.mp hf with hf | hf
              · subst hf; exact hmk _
              · exact ih.2 h f hf
          · simp only [Bool.not_eq_true] at hp
            simpa [runStream, hd, hp] using ih
        | null => exact ⟨fun h => absurd h (by simp [runStream, hd]),
            fun _ => by simp [runStream, hd]⟩
        | bool b => exact ⟨fun h => absurd h (by simp [runStream, hd]),
            fun _ => by simp [runStream, hd]⟩
        | num n => exact ⟨fun h => absurd h (by simp [runStream, hd]),
            fun _ => by simp [runStream, hd]⟩
        | str s => exact ⟨fun h => absurd h (by simp [runStream, hd]),
            fun _ => by simp [runStream, hd]⟩
        | arr l => exact ⟨fun h => absurd h (by simp [runStream, hd]),
            fun _ => by simp [runStream, hd]⟩

theorem runStream_transcodes (final : Json) (mk : Json → Json)
    (chunks : List Json) (pieces : List String)
    (h : chunks.map pieceStrOf = pieces.map some) :
    runStream final mk (chunks.map .chunk ++ [.sentinel]) =
      ((pieces.filter (fun s => !(s == ""))).map (fun s => mk (.str s)) ++ [final],
       .done) := by
  induction chunks generalizing pieces with
  | nil =>
    cases pieces with
    | nil => rfl
    | cons p ps => simp at h
  | cons c cs ih =>
    cases pieces with
    | nil => simp at h
    | cons p ps =>
      simp only [List.map_cons, List.cons.injEq] at h
      obtain ⟨hc, hcs⟩ := h
      simp only [pieceStrOf] at hc
      split at hc
      case h_2 => simp at hc
      case h_1 c' dfields heq =>
        split at hc
        case h_2 => simp at hc
        case h_1 s hs =>
        simp only [Option.some.injEq] at hc
        subst hc
        by_cases hp : s = ""
        · subst hp
          simp only [List.map_cons, List.cons_append, runStream, heq, hs]
          simpa [List.filter] using ih ps hcs
        · have hs' : (!(s == "")) = true := by simpa using hp
          simp only [List.map_cons, List.cons_append, runStream, heq, hs,
            truthy, hs']
          simp only [List.filter, hs']
          simp [ih ps hcs]

theorem contentsOf_chatFrames (m : Json) (now : String) (ss : List String) :
    contentsOf ((ss.map (fun s => chatContentFrame m now (.str s)))
      ++ [chatFinalFrame m now]) = ss := by
  induction ss with
  | nil => rfl
  | cons s t ih =>
    simpa [contentsOf, List.filter_cons, List.filterMap_cons,
      isDoneFrame_chatContentFrame, chatContent_extract] using ih

theorem concatAll_filter_nonempty (l : List String) :
    concatAll (l.filter (fun s => !(s == ""))) = concatAll l := by
  induction l with
  | nil => rfl
  | cons s t ih =>
    by_cases hs : s = ""
    · subst hs
      simpa [concatAll, List.filter_cons] using ih
    · have hs' : (!(s == "")) = true := by simpa using hs
      simp only [List.filter_cons, hs', if_true, concatAll, List.foldr_cons]
      simpa [concatAll] using congrArg (fun x => s ++ x) ih

theorem runStream_frame_invariants (final : Json) (mk : Json → Json)
    (hmk : ∀ p, isDoneFrame (mk p) = false) (hfin : isDoneFrame final = true)
    (items : List SSEItem) :
    (∀ f ∈ (runStream final mk items).1.dropLast, isDoneFrame f = false) ∧
    ((runStream final mk items).2 = .done →
      (runStream final mk items).1.getLast? = some final ∧
      (runStream final mk items).1.countP isDoneFrame = 1) ∧
    ((runStream final mk items).2 ≠ .done →
      (runStream final mk items).1.countP isDoneFrame = 0) := by
  obtain ⟨hdone, hnot⟩ := runStream_done_shape final mk hmk items
  by_cases h2 : (runStream final mk items).2 = .done
  · obtain ⟨cs, hcs, hall⟩ := hdone h2
    refine ⟨?_, fun _ => ⟨?_, ?_⟩, fun h => absurd h2 h⟩
    · rw [hcs, List.dropLast_concat]
      exact hall
    · rw [hcs, List.getLast?_concat]
    · rw [hcs, List.countP_append, List.countP_eq_zero.mpr (by simpa using hall)]
      simp [List.countP_cons, hfin]
  · have hall := hnot h2
    refine ⟨fun f hf => hall f (List.dropLast_subset _ hf),
      fun h => absurd h h2, fun _ => List.countP_eq_zero.mpr (by simpa using hall)⟩

theorem itemOf_doneLine (decode : String → Option Json) :
    itemOf decode "data: [DONE]" = .sentinel := rfl

-- ===============================
-- Concrete fixtures for counterexamples and witnesses
-- ===============================

/-- A decoder given by a finite table: stands in for `json.loads` where a
concrete decoder is needed (the decoder is an abstract parameter of the
model). -/
def tableDecode (tbl : List (String × Json)) : String → Option Json :=
  fun s => dget tbl s

/-- Concrete parsed chat body `{"model": "mm"}` (truthy, non-streaming). -/
def chatBodyFix : Json := .obj [("model", .str "mm")]

/-- Decoder mapping the raw body "BODY" to `chatBodyFix`. -/
def decodeFix : String → Option Json := tableDecode [("BODY", chatBodyFix)]

/-- A POST to the chat route with a JSON content type and raw body "BODY". -/
def reqChatFix : FrontRequest :=
  ⟨"api/chat", "POST", [("content-type", "application/json")], "BODY", ""⟩

/-- Backend whose successful chat reply is `{}` (no `choices`), and whose
passthrough replies are a 404. -/
def backendNoChoices : Backend :=
  ⟨fun _ => .ok (.obj []), fun _ => [],
   fun _ => .ok ⟨404, [("x-b", "1")], "nf"⟩,
   fun _ => .ok (200, [], [])⟩

/-- Backend whose every call raises `httpx.ConnectTimeout`. -/
def backendConnTO : Backend :=
  ⟨fun _ => .error (.connectTimeout "ct"), fun _ => [],
   fun _ => .error (.connectTimeout "ct"),
   fun _ => .error (.connectTimeout "ct")⟩

/-- A backend SSE chunk whose delta content is "He". -/
def chunkHe : Json :=
  .obj [("choices", .arr [.obj [("delta", .obj [("content", .str "He")])]])]

/-- A backend SSE chunk whose delta content is "llo". -/
def chunkLlo : Json :=
  .obj [("choices", .arr [.obj [("delta", .obj [("content", .str "llo")])]])]

/-- Decoder mapping payload "c1" to `chunkHe` and "c2" to `chunkLlo`;
every other payload (for instance "bad") fails to decode. -/
def decodeStreamFix : String → Option Json :=
  tableDecode [("c1", chunkHe), ("c2", chunkLlo)]

-- ===============================
-- Claim theorems
-- ===============================

/-- Claim C6: for every options mapping (possibly empty; an absent mapping
reaches `map_options` as the default `{}`, the empty case), the option
mapper returns without raising a mapping that copies `temperature` and
`top_p` verbatim, sets `max_tokens` from `num_predict`, overwrites it from
an explicit `max_tokens` (explicit wins), and drops every other key. -/
theorem claim_C6_option_mapper (fields : List (String × Json)) (k : String) :
    map_options (.obj fields) = .ok (map_options_spec fields) ∧
    dget (map_options_spec fields) k =
      (if k = "temperature" then dget fields "temperature"
       else if k = "top_p" then dget fields "top_p"
       else if k = "max_tokens" then
         (dget fields "max_tokens").or (dget fields "num_predict")
       else none) :=
  ⟨map_options_eq_spec fields, dget_map_options_spec fields k⟩

/-- Claim C10: for every POST whose parsed body is a JSON object, the
streaming decision is exactly Python truthiness of the `stream` field of
the body (absent means `False`): any non-empty string — including `"false"` —
non-zero number or non-empty container selects streaming; absent, `false`,
`0`, `""` and `null` select non-streaming. -/
theorem claim_C10_streaming_detection :
    (∀ fields : List (String × Json),
      isStreamingOf "POST" (some (.obj fields)) =
        some (truthy (dgetD fields "stream" (.bool false)))) ∧
    isStreamingOf "POST" (some (.obj [("stream", .str "false")])) = some true ∧
    isStreamingOf "POST" (some (.obj [("stream", .num 3)])) = some true ∧
    isStreamingOf "POST" (some (.obj [("stream", .arr [.num 1])])) = some true ∧
    isStreamingOf "POST" (some (.obj [("stream", .bool false)])) = some false ∧
    isStreamingOf "POST" (some (.obj [("stream", .num 0)])) = some false ∧
    isStreamingOf "POST" (some (.obj [("stream", .str "")])) = some false ∧
    isStreamingOf "POST" (some (.obj [("stream", .null)])) = some false ∧
    isStreamingOf "POST" (some (.obj [("other", .num 1)])) = some false := by
  refine ⟨fun fields => ?_, rfl, rfl, rfl, rfl, rfl, rfl, rfl, rfl⟩
  cases fields <;> rfl

/-- Claim C8: a GET to the tags route is answered from the static
single-model inventory — a non-empty `models` list — independently of the
backend (no backend call is made), so the same list comes back even when
the backend is unreachable. -/
theorem claim_C8_tags_static (jsonParse : String → Option Json) (now : String)
    (B Bu : Backend) (req : FrontRequest)
    (hpath : req.path = "api/tags") (hmethod : req.method = "GET") :
    proxy jsonParse now B req = .json 200 (tagsBody now) ∧
    proxy jsonParse now B req = proxy jsonParse now Bu req ∧
    (match jfield (tagsBody now) "models" with
     | some (.arr l) => !l.isEmpty
     | _ => false) = true := by
  obtain ⟨p, m, hd, b, q⟩ := req
  simp only at hpath hmethod
  subst hpath hmethod
  exact ⟨rfl, rfl, rfl⟩

/-- Claim C8 witness: a GET to the tags route against the
always-connect-timeout backend still returns the static model list. -/
theorem claim_C8_tags_static_witness :
    proxy (fun _ => none) "T" backendConnTO ⟨"api/tags", "GET", [], "", ""⟩
      = .json 200 (tagsBody "T") :=
  (claim_C8_tags_static (fun _ => none) "T" backendConnTO backendNoChoices
    ⟨"api/tags", "GET", [], "", ""⟩ rfl rfl).1

/-- Claim C9: a POST to the chat or generate route whose body parses to a
falsy JSON value is not translated: it falls through to the generic
passthrough and is forwarded verbatim. `{}`, `null`, `false`, `0`, `""`
and `[]` are exactly the falsy JSON values. -/
theorem claim_C9_falsy_body (jsonParse : String → Option Json) (now : String)
    (B : Backend) (req : FrontRequest) (j : Json) (resp : BackendResponse)
    (hpath : req.path = "api/chat" ∨ req.path = "api/generate")
    (hmethod : req.method = "POST")
    (hbody : parsedBody jsonParse req = some j)
    (hfalsy : truthy j = false)
    (hfwd : B.forward (passthroughRequest req) = .ok resp) :
    proxy jsonParse now B req = .raw resp.status_code resp.headers resp.content ∧
    (passthroughRequest req).content = req.body ∧
    truthy (.obj []) = false ∧ truthy .null = false ∧ truthy (.bool false) = false ∧
    truthy (.num 0) = false ∧ truthy (.str "") = false ∧ truthy (.arr []) = false := by
  refine ⟨?_, rfl, rfl, rfl, rfl, rfl, rfl, rfl⟩
  rcases hpath with h | h <;>
  · simp [proxy, hbody, isStreamingOf, truthyOpt, hfalsy, hmethod, h,
      genericPassthrough, hfwd]

/-- Decoder mapping the raw body "EMPTY" to the falsy object `{}`. -/
def decodeEmptyFix : String → Option Json := tableDecode [("EMPTY", .obj [])]

/-- A POST to the chat route whose JSON body parses to `{}`. -/
def reqChatEmptyFix : FrontRequest :=
  ⟨"api/chat", "POST", [("content-type", "application/json")], "EMPTY", ""⟩

/-- Claim C9 witness: a chat POST with body `{}` is forwarded to the
backend and the backend 404 passthrough reply is returned unchanged. -/
theorem claim_C9_falsy_body_witness :
    proxy decodeEmptyFix "T" backendNoChoices reqChatEmptyFix
      = .raw 404 [("x-b", "1")] "nf" :=
  (claim_C9_falsy_body decodeEmptyFix "T" backendNoChoices reqChatEmptyFix
    (.obj []) ⟨404, [("x-b", "1")], "nf"⟩ (Or.inl rfl) rfl rfl rfl rfl).1

/-- Claim C7: buffered passthrough of an unmapped path forwards method,
backend-prefixed path, query string, body, and headers minus `host`, and
returns the backend status code, headers, and body unchanged. -/
theorem claim_C7_passthrough (jsonParse : String → Option Json) (now : String)
    (B : Backend) (req : FrontRequest) (s : Bool) (resp : BackendResponse)
    (hpath : req.path ∉ (["api/chat", "api/generate", "api/tags",
      "v1/chat/completions", "v1/completions"] : List String))
    (hstream : isStreamingOf req.method (parsedBody jsonParse req) = some s)
    (hfwd : B.forward (passthroughRequest req) = .ok resp) :
    proxy jsonParse now B req = .raw resp.status_code resp.headers resp.content ∧
    passthroughRequest req =
      { method := req.method, url := VLLM_URL ++ "/" ++ req.path,
        headers := removeHost req.headers, content := req.body,
        params := req.query } := by
  refine ⟨?_, rfl⟩
  simp only [List.mem_cons, List.mem_singleton, not_or] at hpath
  obtain ⟨h1, h2, h3, h4, h5⟩ := hpath
  simp [proxy, hstream, h1, h2, h3, h4, h5, genericPassthrough, hfwd]

/-- An unmapped GET with a host header and a query string. -/
def reqModelsFix : FrontRequest :=
  ⟨"v1/models", "GET", [("host", "h"), ("a", "b")], "", "q"⟩

/-- Claim C7 witness: the backend 404 comes back as 404, body unchanged,
and the forwarded request dropped `host` and kept everything else. -/
theorem claim_C7_passthrough_witness :
    proxy (fun _ => none) "T" backendNoChoices reqModelsFix
      = .raw 404 [("x-b", "1")] "nf" ∧
    passthroughRequest reqModelsFix =
      { method := "GET", url := VLLM_URL ++ "/" ++ "v1/models",
        headers := [("a", "b")], content := "", params := "q" } := by
  have h := claim_C7_passthrough (fun _ => none) "T" backendNoChoices reqModelsFix
    false ⟨404, [("x-b", "1")], "nf"⟩ (by decide) rfl rfl
  exact ⟨h.1, h.2⟩

/-- Claim C1 counterexample: a non-streaming chat POST whose backend call
succeeds with `{}` (no first choice) does not get a 502 response — the
field access raises `KeyError` and the exception escapes the handler. -/
theorem claim_C1_counterexample :
    proxy decodeFix "T" backendNoChoices reqChatFix = .raised ∧
    statusOf (proxy decodeFix "T" backendNoChoices reqChatFix) ≠ some 502 := by
  refine ⟨rfl, fun h => ?_⟩
  have h2 : (none : Option Nat) = some 502 :=
    (rfl : statusOf (proxy decodeFix "T" backendNoChoices reqChatFix)
      = none).symm.trans h
  simp at h2

theorem synthesize_raises (now : String) (ollama_model data : Json)
    (hmissing : contentOf data = none) :
    chatSynthesize now ollama_model data = .raised ∧
    generateSynthesize now ollama_model data = .raised := by
  cases hc : firstChoice data with
  | none => constructor <;> simp [chatSynthesize, generateSynthesize, hc]
  | some c0 =>
    have h2 : (jfield c0 "message").bind (fun mm => jfield mm "content") = none := by
      simpa [contentOf, hc] using hmissing
    constructor <;> simp [chatSynthesize, generateSynthesize, hc, h2]

/-- Claim C1 amended: on a non-streaming chat or generate translation
where the backend call succeeds but the reply lacks a first choice or a
message content field, the subscript chain raises and the exception
escapes the handler (the server framework outside this code turns it into
a generic internal error) — the handler does not return a 502 response. -/
theorem claim_C1_amended (jsonParse : String → Option Json) (now : String)
    (B : Backend) (data : Json) (fields mo : List (String × Json))
    (hB : ∀ p, B.chat_completions p = .ok data)
    (hopt : map_options (dgetD fields "options" (.obj [])) = .ok mo)
    (hmissing : contentOf data = none) :
    chatRoute jsonParse now B fields false = .raised ∧
    generateRoute jsonParse now B fields false = .raised := by
  constructor <;>
    simp [chatRoute, generateRoute, hopt, hB,
      synthesize_raises now _ data hmissing]

/-- Claim C1 witness (for the amended claim): the chat and generate
translation branches both raise on a successful `{}` backend reply. -/
theorem claim_C1_amended_witness :
    chatRoute decodeFix "T" backendNoChoices [("model", .str "mm")] false
      = .raised :=
  (claim_C1_amended decodeFix "T" backendNoChoices (.obj [])
    [("model", .str "mm")] [] (fun _ => rfl) rfl rfl).1

/-- Claim C2 counterexample: on the chat translation route a backend
connect timeout is an `httpx.HTTPError`, is caught by the translation
route handler via `except httpx.HTTPError`, and is answered with 502 — not the 503 the
claim requires uniformly on all routes. -/
theorem claim_C2_counterexample :
    statusOf (proxy decodeFix "T" backendConnTO reqChatFix) = some 502 ∧
    statusOf (proxy decodeFix "T" backendConnTO reqChatFix) ≠ some 503 := by
  refine ⟨rfl, fun h => ?_⟩
  have h2 : (some 502 : Option Nat) = some 503 :=
    (rfl : statusOf (proxy decodeFix "T" backendConnTO reqChatFix)
      = some 502).symm.trans h
  simp at h2

/-- Claim C2 amended: the claimed classification (connect timeout → 503,
read timeout → 504, other HTTP error → 502, anything else → 500) holds on
the passthrough routes, buffered and streaming alike; on the chat and
generate translation routes, however, every `httpx` error — timeouts
included — yields 502, and a non-`httpx` failure escapes the handler. -/
theorem claim_C2_amended (jsonParse : String → Option Json) (now : String)
    (B : Backend) (req : FrontRequest) (e : UpstreamErr) (m : String)
    (fields mo : List (String × Json)) :
    (B.forward (passthroughRequest req) = .error e →
      genericPassthrough B req = passthroughFailure e) ∧
    (B.forward_stream (passthroughRequest req) = .error e →
      openaiStreamRoute B req = passthroughFailure e) ∧
    statusOf (passthroughFailure (.connectTimeout m)) = some 503 ∧
    statusOf (passthroughFailure (.readTimeout m)) = some 504 ∧
    statusOf (passthroughFailure (.httpError m)) = some 502 ∧
    statusOf (passthroughFailure (.otherError m)) = some 500 ∧
    ((∀ p, B.chat_completions p = .error e) →
      map_options (dgetD fields "options" (.obj [])) = .ok mo →
      statusOf (chatRoute jsonParse now B fields false) =
        (if isHttpError e then some 502 else none) ∧
      statusOf (generateRoute jsonParse now B fields false) =
        (if isHttpError e then some 502 else none)) := by
  refine ⟨fun h => ?_, fun h => ?_, rfl, rfl, rfl, rfl, fun hB hopt => ⟨?_, ?_⟩⟩
  · simp [genericPassthrough, h]
  · simp [openaiStreamRoute, h]
  · simp only [chatRoute, hopt, hB]
    cases e <;> simp [isHttpError, statusOf]
  · simp only [generateRoute, hopt, hB]
    cases e <;> simp [isHttpError, statusOf]

/-- Claim C2 witness (for the amended claim): concrete instances — the
passthrough classification on a connect timeout gives 503, and the chat
translation route answers the same connect timeout with 502. -/
theorem claim_C2_amended_witness :
    genericPassthrough backendConnTO reqChatFix
      = passthroughFailure (.connectTimeout "ct") ∧
    statusOf (passthroughFailure (.connectTimeout "x")) = some 503 ∧
    statusOf (chatRoute decodeFix "T" backendConnTO
      [("model", .str "mm")] false) = some 502 := by
  have h := claim_C2_amended decodeFix "T" backendConnTO reqChatFix
    (.connectTimeout "ct") "x" [("model", .str "mm")] []
  exact ⟨h.1 rfl, h.2.2.1, (h.2.2.2.2.2.2 (fun _ => rfl) rfl).1⟩

/-- Claim C3: for a streaming chat request against a backend whose SSE
lines are a sequence of decoded delta chunks followed by the terminator,
the concatenation of the contents of the emitted non-terminal frames
equals the concatenation of the delta pieces of the backend in arrival order;
an empty delta piece contributes no frame (the frame count is the number
of non-empty pieces, plus the one terminal frame). -/
theorem claim_C3_stream_concat (decode : String → Option Json)
    (ollama_model : Json) (now : String) (lines : List String)
    (chunks : List Json) (pieces : List String)
    (hlines : lines.map (itemOf decode)
      = chunks.map SSEItem.chunk ++ [SSEItem.sentinel])
    (hpieces : chunks.map pieceStrOf = pieces.map some) :
    concatAll (contentsOf (chat_streamer decode ollama_model now lines).1)
      = concatAll pieces ∧
    contentsOf (chat_streamer decode ollama_model now lines).1
      = pieces.filter (fun s => !(s == "")) ∧
    (chat_streamer decode ollama_model now lines).1.length
      = (pieces.filter (fun s => !(s == ""))).length + 1 ∧
    (chat_streamer decode ollama_model now lines).2 = .done := by
  have h := runStream_transcodes (chatFinalFrame ollama_model now)
    (chatContentFrame ollama_model now) chunks pieces hpieces
  unfold chat_streamer
  rw [hlines, h]
  refine ⟨?_, ?_, ?_, rfl⟩
  · rw [contentsOf_chatFrames, concatAll_filter_nonempty]
  · rw [contentsOf_chatFrames]
  · simp

/-- Claim C3 witness: backend pieces ["He", "llo"] then the terminator
concatenate to "Hello" and the stream ends on the terminal frame. -/
theorem claim_C3_stream_concat_witness :
    concatAll (contentsOf (chat_streamer decodeStreamFix (.str "m") "T"
      ["data: c1", "data: c2", "data: [DONE]"]).1) = "Hello" ∧
    (chat_streamer decodeStreamFix (.str "m") "T"
      ["data: c1", "data: c2", "data: [DONE]"]).2 = .done := by
  have h := claim_C3_stream_concat decodeStreamFix (.str "m") "T"
    ["data: c1", "data: c2", "data: [DONE]"] [chunkHe, chunkLlo] ["He", "llo"]
    rfl rfl
  exact ⟨h.1.trans rfl, h.2.2.2⟩

/-- Claim C4 counterexample: a backend stream that delivers one delta and
then closes without the terminator sentinel produces one content frame
and no terminal frame at all — so a streamed response does not always
contain `done=true` exactly once. -/
theorem claim_C4_counterexample :
    (chat_streamer decodeStreamFix (.str "m") "T" ["data: c1"]).1.countP
      isDoneFrame ≠ 1 ∧
    (chat_streamer decodeStreamFix (.str "m") "T" ["data: c1"]).1.length = 1 ∧
    (chat_streamer decodeStreamFix (.str "m") "T" ["data: c1"]).2 = .exhausted := by
  have h0 : (chat_streamer decodeStreamFix (.str "m") "T" ["data: c1"]).1.countP
      isDoneFrame = 0 := rfl
  exact ⟨by simp [h0], rfl, rfl⟩

/-- Claim C4 amended: a streamed response contains at most one
`done=true` frame, always in final position; when the terminator sentinel
is reached the transcoder emits exactly one terminal frame (the literal
with `done_reason` "stop" and zero-filled counters), it is the final
frame, and reading stops (lines after the sentinel are ignored); a stream
that ends without the sentinel contains no terminal frame. Both the chat
and the generate transcoder satisfy this. -/
theorem claim_C4_terminal_frame (decode : String → Option Json)
    (ollama_model : Json) (now : String) (lines : List String) :
    ((∀ f ∈ (chat_streamer decode ollama_model now lines).1.dropLast,
        isDoneFrame f = false) ∧
      ((chat_streamer decode ollama_model now lines).2 = .done →
        (chat_streamer decode ollama_model now lines).1.getLast?
          = some (chatFinalFrame ollama_model now) ∧
        (chat_streamer decode ollama_model now lines).1.countP isDoneFrame = 1) ∧
      ((chat_streamer decode ollama_model now lines).2 ≠ .done →
        (chat_streamer decode ollama_model now lines).1.countP isDoneFrame = 0) ∧
      (∀ pre post,
        chat_streamer decode ollama_model now (pre ++ "data: [DONE]" :: post)
          = chat_streamer decode ollama_model now (pre ++ ["data: [DONE]"]))) ∧
    ((∀ f ∈ (generate_streamer decode ollama_model now lines).1.dropLast,
        isDoneFrame f = false) ∧
      ((generate_streamer decode ollama_model now lines).2 = .done →
        (generate_streamer decode ollama_model now lines).1.getLast?
          = some (genFinalFrame ollama_model now) ∧
        (generate_streamer decode ollama_model now lines).1.countP isDoneFrame = 1) ∧
      ((generate_streamer decode ollama_model now lines).2 ≠ .done →
        (generate_streamer decode ollama_model now lines).1.countP isDoneFrame = 0) ∧
      (∀ pre post,
        generate_streamer decode ollama_model now (pre ++ "data: [DONE]" :: post)
          = generate_streamer decode ollama_model now (pre ++ ["data: [DONE]"]))) := by
  constructor
  · obtain ⟨ha, hb, hc⟩ := runStream_frame_invariants
      (chatFinalFrame ollama_model now) (chatContentFrame ollama_model now)
      (fun p => isDoneFrame_chatContentFrame ollama_model now p)
      (isDoneFrame_chatFinalFrame ollama_model now)
      (lines.map (itemOf decode))
    refine ⟨ha, hb, hc, fun pre post => ?_⟩
    unfold chat_streamer
    rw [List.map_append, List.map_append, List.map_cons, List.map_cons,
      List.map_nil, itemOf_doneLine]
    exact runStream_sentinel_stop _ _ _ _
  · obtain ⟨ha, hb, hc⟩ := runStream_frame_invariants
      (genFinalFrame ollama_model now) (genContentFrame ollama_model now)
      (fun p => isDoneFrame_genContentFrame ollama_model now p)
      (isDoneFrame_genFinalFrame ollama_model now)
      (lines.map (itemOf decode))
    refine ⟨ha, hb, hc, fun pre post => ?_⟩
    unfold generate_streamer
    rw [List.map_append, List.map_append, List.map_cons, List.map_cons,
      List.map_nil, itemOf_doneLine]
    exact runStream_sentinel_stop _ _ _ _

/-- Claim C4 witness (for the amended claim): a stream reaching the
sentinel has exactly one terminal frame, in final position. -/
theorem claim_C4_terminal_frame_witness :
    (chat_streamer decodeStreamFix (.str "m") "T"
      ["data: c1", "data: [DONE]"]).1.countP isDoneFrame = 1 ∧
    (chat_streamer decodeStreamFix (.str "m") "T"
      ["data: c1", "data: [DONE]"]).1.getLast?
      = some (chatFinalFrame (.str "m") "T") := by
  have h := ((claim_C4_terminal_frame decodeStreamFix (.str "m") "T"
    ["data: c1", "data: [DONE]"]).1).2.1 rfl
  exact ⟨h.2, h.1⟩

/-- Claim C5: a malformed SSE data line is discarded: the frames emitted
(by either transcoder) are exactly those emitted had the line been absent
— no early termination, no frame for the malformed line. -/
theorem claim_C5_malformed_line (decode : String → Option Json)
    (ollama_model : Json) (now : String) (pre post : List String) (line : String)
    (hmal : itemOf decode line = .malformed) :
    chat_streamer decode ollama_model now (pre ++ line :: post)
      = chat_streamer decode ollama_model now (pre ++ post) ∧
    generate_streamer decode ollama_model now (pre ++ line :: post)
      = generate_streamer decode ollama_model now (pre ++ post) := by
  constructor <;>
  · simp only [chat_streamer, generate_streamer]
    rw [List.map_append, List.map_append, List.map_cons, hmal]
    exact runStream_malformed _ _ _ _

/-- Claim C5 witness: a malformed line between a valid delta line and the
terminator changes nothing. -/
theorem claim_C5_malformed_line_witness :
    chat_streamer decodeStreamFix (.str "m") "T"
      ["data: c1", "data: bad", "data: [DONE]"]
      = chat_streamer decodeStreamFix (.str "m") "T"
        ["data: c1", "data: [DONE]"] :=
  (claim_C5_malformed_line decodeStreamFix (.str "m") "T" ["data: c1"]
    ["data: [DONE]"] "data: bad" rfl).1

end OllamaProxy
